import Mathlib

/-!
# Verification of `scripts/unifi_clients.py`

A shallow embedding of the script `unifi_clients.py`: JSON values are an
inductive type, Python dictionaries parsed from JSON are association lists,
the HTTP layer is an oracle mapping a request to either a decoded JSON body
(2xx with valid JSON) or a `requests.exceptions.RequestException` message,
and uncaught Python exceptions (e.g. `AttributeError` from calling a string
method on a non-string) are modelled with `Except`.  Numbers are modelled as
integers (the script never does arithmetic on vendor numbers beyond counting).
-/

/-- A JSON value, as produced by `response.json()` / consumed by `json.dumps`. -/
inductive JVal where
  | null : JVal
  | bool : Bool → JVal
  | num : Int → JVal
  | str : String → JVal
  | arr : List JVal → JVal
  | obj : List (String × JVal) → JVal
deriving Repr

mutual

/-- Python `==` on JSON values: structural equality.  (Python's numeric
cross-type equalities such as `True == 1` do not arise in the script.) -/
def JVal.beq : JVal → JVal → Bool
  | .null, .null => true
  | .bool a, .bool b => a == b
  | .num a, .num b => a == b
  | .str a, .str b => a == b
  | .arr a, .arr b => JVal.beqList a b
  | .obj a, .obj b => JVal.beqObj a b
  | _, _ => false

def JVal.beqList : List JVal → List JVal → Bool
  | [], [] => true
  | x :: xs, y :: ys => JVal.beq x y && JVal.beqList xs ys
  | _, _ => false

def JVal.beqObj : List (String × JVal) → List (String × JVal) → Bool
  | [], [] => true
  | (k, v) :: xs, (l, w) :: ys => k == l && JVal.beq v w && JVal.beqObj xs ys
  | _, _ => false

end

instance : BEq JVal := ⟨JVal.beq⟩

/-- A Python dict parsed from a JSON object: an association list of fields. -/
abbrev Obj := List (String × JVal)

/-- First binding of key `k` (JSON-parsed dicts have unique keys). -/
def lookupField (o : Obj) (k : String) : Option JVal :=
  (o.find? (fun kv => kv.1 == k)).map (fun kv => kv.2)

/-- Python `d.get(k, dflt)`. -/
def Obj.getD (o : Obj) (k : String) (d : JVal) : JVal :=
  (lookupField o k).getD d

/-- Python `d.get(k)` — `None` when the key is absent. -/
def Obj.getN (o : Obj) (k : String) : JVal :=
  (lookupField o k).getD JVal.null

/-- Python truthiness of a JSON value. -/
def JVal.truthy : JVal → Bool
  | .null => false
  | .bool b => b
  | .num n => n != 0
  | .str s => s != ""
  | .arr xs => !xs.isEmpty
  | .obj fs => !fs.isEmpty

/-- Python `v.get(...)` requires a dict: `AttributeError` otherwise. -/
def JVal.asObj : JVal → Except String Obj
  | .obj fs => .ok fs
  | _ => .error "AttributeError: get"

/-- A string method (`.lower()`, `.split(...)`, `.startswith(...)`) requires
a `str`: `AttributeError` otherwise. -/
def JVal.asStr : JVal → Except String String
  | .str s => .ok s
  | _ => .error "AttributeError: str method"

/-- Python iteration: lists yield elements, strings yield one-character
strings, dicts yield their keys; other values raise `TypeError`. -/
def pyIter : JVal → Except String (List JVal)
  | .arr xs => .ok xs
  | .str s => .ok (s.toList.map (fun c => JVal.str c.toString))
  | .obj fs => .ok (fs.map (fun kv => JVal.str kv.1))
  | _ => .error "TypeError: not iterable"

/-- Python `s.lower()`: lowercase each character.  (Defined by mapping over
the character list so that it reduces in the kernel; it agrees with
`String.toLower` and with CPython on the ASCII data the script handles.) -/
def pyLower (s : String) : String :=
  String.mk (s.data.map Char.toLower)

mutual

/-- Python `str()` of a JSON value, used only inside the f-string of
`format_port`.  Exact on scalars; containers are rendered without the
quoting Python's `repr` adds around strings. -/
def pyStr : JVal → String
  | .null => "None"
  | .bool true => "True"
  | .bool false => "False"
  | .num n => toString n
  | .str s => s
  | .arr xs => "[" ++ pyStrList xs ++ "]"
  | .obj fs => "\x7b" ++ pyStrObj fs ++ "\x7d"

def pyStrList : List JVal → String
  | [] => ""
  | [x] => pyStr x
  | x :: y :: xs => pyStr x ++ ", " ++ pyStrList (y :: xs)

def pyStrObj : List (String × JVal) → String
  | [] => ""
  | [(k, v)] => k ++ ": " ++ pyStr v
  | (k, v) :: y :: xs => k ++ ": " ++ pyStr v ++ ", " ++ pyStrObj (y :: xs)

end

/-- Python `pat in s` substring test. -/
def strContains (s pat : String) : Bool :=
  (s.splitOn pat).length > 1

/-- `format_port(port)`: renames/defaults the fields of one `port_table`
entry (`unifi_clients.py` lines 227–243). -/
def format_port (port : Obj) : Obj :=
  [("port_idx", port.getN "port_idx"),
   ("name", port.getD "name" (.str ("Port " ++ pyStr (port.getD "port_idx" (.str "?"))))),
   ("up", port.getD "up" (.bool false)),
   ("speed", port.getD "speed" (.num 0)),
   ("full_duplex", port.getD "full_duplex" (.bool false)),
   ("poe_enable", port.getD "poe_enable" (.bool false)),
   ("poe_mode", port.getD "poe_mode" (.str "")),
   ("poe_power", port.getD "poe_power" (.str "")),
   ("is_uplink", port.getD "is_uplink" (.bool false)),
   ("mac", port.getD "mac" (.str "")),
   ("lldp_remote_mac", port.getD "lldp_remote_mac" (.str "")),
   ("port_mac", port.getD "port_mac" (.str ""))]

/-- The `device_names` dict built in `get_devices`: keys may be arbitrary
JSON values (`d.get("mac")` can be `None`), and a dict comprehension lets a
later binding overwrite an earlier one, so lookup takes the last binding. -/
def dictLookup (m : List (JVal × JVal)) (k : JVal) (dflt : JVal) : JVal :=
  match m.reverse.find? (fun kv => kv.1 == k) with
  | some kv => kv.2
  | none => dflt

/-- `format_client(client, device_names)` (`unifi_clients.py` lines 246–295). -/
def format_client (client : Obj) (device_names : List (JVal × JVal)) : Obj :=
  let sw_mac := client.getD "sw_mac" (.str "")
  [("mac", client.getD "mac" (.str "")),
   ("hostname", client.getD "hostname" (client.getD "name" (.str "Unknown"))),
   ("name", client.getD "name" (client.getD "hostname" (.str ""))),
   ("oui", client.getD "oui" (.str "")),
   ("ip", client.getD "ip" (.str "")),
   ("network", client.getD "network" (.str "")),
   ("vlan", client.getD "vlan" (.num 1)),
   ("sw_port", client.getN "sw_port"),
   ("sw_mac", sw_mac),
   ("sw_name", dictLookup device_names sw_mac (.str "Unknown Switch")),
   ("sw_depth", client.getN "sw_depth"),
   ("is_wired", client.getD "is_wired" (.bool false)),
   ("is_guest", client.getD "is_guest" (.bool false)),
   ("uptime", client.getD "uptime" (.num 0)),
   ("last_seen", client.getD "last_seen" (.num 0)),
   ("first_seen", client.getD "first_seen" (.num 0)),
   ("essid", client.getD "essid" (.str "")),
   ("radio", client.getD "radio" (.str "")),
   ("signal", client.getD "signal" (.num 0)),
   ("channel", client.getN "channel"),
   ("ap_mac", client.getD "ap_mac" (.str "")),
   ("tx_bytes", client.getD "tx_bytes" (.num 0)),
   ("rx_bytes", client.getD "rx_bytes" (.num 0)),
   ("tx_packets", client.getD "tx_packets" (.num 0)),
   ("rx_packets", client.getD "rx_packets" (.num 0)),
   ("satisfaction", client.getD "satisfaction" (.num 100)),
   ("noted", client.getD "noted" (.bool false)),
   ("usergroup_id", client.getD "usergroup_id" (.str ""))]

/-- Python `v in [s1, s2, ...]` membership test against a list of strings. -/
def jvalIn (v : JVal) (ss : List String) : Bool :=
  ss.any (fun s => v == JVal.str s)

/-- `data.get("data", [])` on a decoded JSON body: `.get` needs a dict. -/
def pyGetD (v : JVal) (k : String) (d : JVal) : Except String JVal :=
  (JVal.asObj v).map (fun o => Obj.getD o k d)

/-- Sequential effectful map, as a Python comprehension evaluates: the
first raised exception propagates. -/
def mapE {α β : Type} (f : α → Except String β) : List α → Except String (List β)
  | [] => .ok []
  | x :: xs =>
    match f x with
    | .error e => .error e
    | .ok y =>
      match mapE f xs with
      | .error e => .error e
      | .ok ys => .ok (y :: ys)

/-- The `for net in network_table` loop of `format_device` (lines 162–169):
scans for a LAN network, returning its `ip_subnet` host part when non-empty
(the `break`), otherwise leaving `ip_address` unchanged. -/
def lanLoop (ip0 : JVal) : List JVal → Except String JVal
  | [] => .ok ip0
  | net :: rest => do
      let netO ← JVal.asObj net
      let nameS ← JVal.asStr (netO.getD "name" (.str ""))
      let net_name := pyLower nameS
      if strContains net_name "lan" || (netO.getD "is_default" (.bool false)).truthy then do
        let subS ← JVal.asStr (netO.getD "ip_subnet" (.str ""))
        let lan_ip := (subS.splitOn "/").headD ""
        if lan_ip != "" then pure (.str lan_ip) else lanLoop ip0 rest
      else lanLoop ip0 rest

/-- The gateway branch of `format_device` (lines 157–186): prefer a LAN IP
from `network_table`, then `config_network.ip`, then a private
`connect_request_ip`, over the (possibly WAN) `ip` field. -/
def gatewayIp (device : Obj) (ip0 : JVal) : Except String JVal := do
  let nets ← pyIter (device.getD "network_table" (.arr []))
  let ip1 ← lanLoop ip0 nets
  let ip2 ←
    if !ip1.truthy || ip1 == device.getD "ip" (.str "") then do
      let cnO ← JVal.asObj (device.getD "config_network" (.obj []))
      if (cnO.getN "ip").truthy then pure (cnO.getN "ip") else pure ip1
    else pure ip1
  if !ip2.truthy || ip2 == device.getD "ip" (.str "") then
    let cip := device.getD "connect_request_ip" (.str "")
    if cip.truthy then do
      let s ← JVal.asStr cip
      if s.startsWith "192.168." || s.startsWith "10." || s.startsWith "172." then
        pure cip
      else pure ip2
    else pure ip2
  else pure ip2

/-- `format_device(device)` (lines 134–224). -/
def format_device (device : Obj) : Except String Obj := do
  let device_type := device.getD "type" (.str "unknown")
  let category : JVal :=
    if jvalIn device_type ["usw", "usw-pro", "usw-flex"] then .str "switch"
    else if jvalIn device_type ["uap", "uap-pro", "uap-ac", "u6"] then .str "access_point"
    else if jvalIn device_type ["ugw", "udm", "udr", "uxg"] then .str "gateway"
    else device_type
  let port_items ← pyIter (device.getD "port_table" (.arr []))
  let ups ← mapE (fun p => (JVal.asObj p).map (fun o => Obj.getD o "up" (.bool false))) port_items
  let ports_used := ups.countP JVal.truthy
  let ports_total := port_items.length
  let ip0 := device.getD "ip" (.str "")
  let ip_address ← if category == .str "gateway" then gatewayIp device ip0 else pure ip0
  let fmt_ports ←
    if jvalIn category ["switch", "gateway"] then do
      let port_objs ← mapE JVal.asObj port_items
      pure (port_objs.map (fun p => JVal.obj (format_port p)))
    else pure []
  let sysStats ← JVal.asObj (device.getD "system-stats" (.obj []))
  let sysStats2 ← JVal.asObj (device.getD "sys_stats" (.obj []))
  pure
    [("mac", device.getD "mac" (.str "")),
     ("name", device.getD "name" (device.getD "model" (.str "Unknown"))),
     ("model", device.getD "model" (.str "")),
     ("type", device_type),
     ("category", category),
     ("ip", ip_address),
     ("gateway_mac", device.getD "gateway_mac" (.str "")),
     ("state", device.getD "state" (.num 0)),
     ("adopted", device.getD "adopted" (.bool false)),
     ("uptime", device.getD "uptime" (.num 0)),
     ("last_seen", device.getD "last_seen" (.num 0)),
     ("version", device.getD "version" (.str "")),
     ("upgradable", device.getD "upgradable" (.bool false)),
     ("ports_total", .num ports_total),
     ("ports_used", .num ports_used),
     ("port_table", .arr fmt_ports),
     ("num_sta", device.getD "num_sta" (.num 0)),
     ("channel", device.getD "channel" (.str "")),
     ("radio_table", device.getD "radio_table" (.arr [])),
     ("cpu", sysStats.getD "cpu" (.str "")),
     ("mem", sysStats.getD "mem" (.str "")),
     ("loadavg_1", sysStats2.getD "loadavg_1" (.str ""))]

/-- The configuration dict built by `get_config` (lines 22–30). -/
structure Config where
  host : String
  username : String
  password : String
  site : String
  verify_ssl : Bool
deriving Repr, DecidableEq

/-- `get_config()`: environment variables with defaults; the environment is
a partial map from variable name to value. -/
def get_config (env : String → Option String) : Config where
  host := (env "UNIFI_HOST").getD "192.168.1.1"
  username := (env "UNIFI_USERNAME").getD ""
  password := (env "UNIFI_PASSWORD").getD ""
  site := (env "UNIFI_SITE").getD "default"
  verify_ssl := pyLower ((env "UNIFI_VERIFY_SSL").getD "false") == "true"

/-- An HTTP request issued through the `requests` session. -/
structure HttpReq where
  method : String
  url : String
deriving Repr, DecidableEq

/-- The network: maps a request to a decoded 2xx JSON body (`.ok`) or to the
message of the `requests.exceptions.RequestException` it raises (`.error`,
covering connection failures and `raise_for_status` on non-2xx). -/
abbrev Oracle := HttpReq → Except String JVal

def authUrl (cfg : Config) : String := "https://" ++ cfg.host ++ "/api/auth/login"

def legacyAuthUrl (cfg : Config) : String := "https://" ++ cfg.host ++ ":8443/api/login"

def clientsUrl (cfg : Config) : String :=
  "https://" ++ cfg.host ++ "/proxy/network/api/s/" ++ cfg.site ++ "/stat/sta"

def legacyClientsUrl (cfg : Config) : String :=
  "https://" ++ cfg.host ++ ":8443/api/s/" ++ cfg.site ++ "/stat/sta"

def devicesUrl (cfg : Config) : String :=
  "https://" ++ cfg.host ++ "/proxy/network/api/s/" ++ cfg.site ++ "/stat/device"

/-- The error object `authenticate` prints when both endpoints fail
(line 68): the message of the *primary* exception `e`, and an empty
`clients` list. -/
def authFailDoc (e : String) : JVal :=
  .obj [("error", .str ("Authentication failed: " ++ e)), ("clients", .arr [])]

/-- `authenticate(session, config)` (lines 33–69).  Returns the requests
issued in order, the JSON documents printed, and the boolean result.  On
double failure it prints an error object carrying `str(e)` of the *primary*
exception. -/
def authenticate (oracle : Oracle) (cfg : Config) : List HttpReq × List JVal × Bool :=
  let req : HttpReq := ⟨"POST", authUrl cfg⟩
  match oracle req with
  | .ok _ => ([req], [], true)
  | .error e =>
    let lreq : HttpReq := ⟨"POST", legacyAuthUrl cfg⟩
    match oracle lreq with
    | .ok _ => ([req, lreq], [], true)
    | .error _ => ([req, lreq], [authFailDoc e], false)

/-- `get_clients(session, config)` (lines 72–102): primary endpoint, one
legacy fallback, `[]` when both fail.  Body processing (`data.get`) can
raise an uncaught `AttributeError`, hence the `Except`. -/
def get_clients (oracle : Oracle) (cfg : Config) : List HttpReq × Except String JVal :=
  let req : HttpReq := ⟨"GET", clientsUrl cfg⟩
  match oracle req with
  | .ok body => ([req], pyGetD body "data" (.arr []))
  | .error _ =>
    let lreq : HttpReq := ⟨"GET", legacyClientsUrl cfg⟩
    match oracle lreq with
    | .ok body => ([req, lreq], pyGetD body "data" (.arr []))
    | .error _ => ([req, lreq], .ok (.arr []))

/-- `get_devices(session, config)` (lines 105–131): a single endpoint with
*no* legacy fallback; `({}, [])` on request failure.  Only
`RequestException` is caught: errors from body processing or
`format_device` propagate. -/
def get_devices (oracle : Oracle) (cfg : Config) :
    List HttpReq × Except String (List (JVal × JVal) × List Obj) :=
  let req : HttpReq := ⟨"GET", devicesUrl cfg⟩
  match oracle req with
  | .error _ => ([req], .ok ([], []))
  | .ok body =>
    ([req],
      match pyGetD body "data" (.arr []) with
      | .error e => .error e
      | .ok dataV =>
        match pyIter dataV with
        | .error e => .error e
        | .ok raw =>
          match mapE JVal.asObj raw with
          | .error e => .error e
          | .ok rawObjs =>
            let name_map := rawObjs.map
              (fun d => (d.getN "mac", d.getD "name" (d.getD "model" (.str "Unknown"))))
            match mapE format_device rawObjs with
            | .error e => .error e
            | .ok devices_list => .ok (name_map, devices_list))

/-- The key Python computes for `clients.sort` (line 328):
`x.get("hostname", "").lower()` — an `AttributeError` on a non-string. -/
def clientSortKey (c : Obj) : Except String String :=
  (JVal.asStr (c.getD "hostname" (.str ""))).map pyLower

/-- The key Python computes for `devices.sort` (line 331):
`x.get("name", "").lower()`. -/
def deviceSortKey (d : Obj) : Except String String :=
  (JVal.asStr (d.getD "name" (.str ""))).map pyLower

/-- Lexicographic comparison of character lists by code point — exactly how
CPython compares the `str` sort keys.  (Defined from scratch so that it
reduces in the kernel, which `String.decidableLE` does not.) -/
def charsLe : List Char → List Char → Bool
  | [], _ => true
  | _ :: _, [] => false
  | a :: as, b :: bs =>
    if a.toNat < b.toNat then true
    else if b.toNat < a.toNat then false
    else charsLe as bs

/-- Python `a <= b` on strings: code-point lexicographic order. -/
def strLe (a b : String) : Bool :=
  charsLe a.data b.data

/-- `charsLe` is total: one direction always holds.  (Stated as a
definition producing the proof so that every theorem in this file can come
after every definition.) -/
def charsLe_total : ∀ as bs : List Char, charsLe as bs = true ∨ charsLe bs as = true
  | [], _ => Or.inl rfl
  | _ :: _, [] => Or.inr rfl
  | a :: as, b :: bs => by
    by_cases hab : a.toNat < b.toNat
    · left; simp [charsLe, hab]
    · by_cases hba : b.toNat < a.toNat
      · right; simp [charsLe, hba]
      · rcases charsLe_total as bs with h | h
        · left; simp [charsLe, hab, hba, h]
        · right; simp [charsLe, hab, hba, h]

/-- `charsLe` is transitive. -/
def charsLe_trans : ∀ as bs cs : List Char,
    charsLe as bs = true → charsLe bs cs = true → charsLe as cs = true
  | [], _, _, _, _ => rfl
  | a :: as, [], _, h, _ => by simp [charsLe] at h
  | _ :: _, _ :: _, [], _, h => by simp [charsLe] at h
  | a :: as, b :: bs, c :: cs, h1, h2 => by
    simp only [charsLe] at h1 h2 ⊢
    by_cases hab : a.toNat < b.toNat
    · by_cases hbc : b.toNat < c.toNat
      · have hac : a.toNat < c.toNat := Nat.lt_trans hab hbc
        simp [hac]
      · by_cases hcb : c.toNat < b.toNat
        · simp [hbc, hcb] at h2
        · have hac : a.toNat < c.toNat := by omega
          simp [hac]
    · by_cases hba : b.toNat < a.toNat
      · simp [hab, hba] at h1
      · by_cases hbc : b.toNat < c.toNat
        · have hac : a.toNat < c.toNat := by omega
          simp [hac]
        · by_cases hcb : c.toNat < b.toNat
          · simp [hbc, hcb] at h2
          · have hac : ¬a.toNat < c.toNat := by omega
            have hca : ¬c.toNat < a.toNat := by omega
            simp only [hab, hba, if_false] at h1
            simp only [hbc, hcb, if_false] at h2
            simp only [hac, hca, if_false]
            exact charsLe_trans as bs cs h1 h2

/-- Comparison of key-decorated elements: by key. -/
def pairLE : (String × Obj) → (String × Obj) → Prop := fun a b => strLe a.1 b.1 = true

instance : DecidableRel pairLE := fun a b => (inferInstance : Decidable (strLe a.1 b.1 = true))

instance : IsTotal (String × Obj) pairLE := ⟨fun a b => charsLe_total a.1.data b.1.data⟩

instance : IsTrans (String × Obj) pairLE :=
  ⟨fun a b c h1 h2 => charsLe_trans a.1.data b.1.data c.1.data h1 h2⟩

/-- Python `list.sort(key=...)`: compute every key, then sort stably by key.
CPython's sort and insertion sort are both stable with respect to the total
preorder the key induces, so they produce the same ordering. -/
def sortByKey (key : Obj → Except String String) (xs : List Obj) :
    Except String (List Obj) :=
  match mapE (fun x => (key x).map (fun s => (s, x))) xs with
  | .error e => .error e
  | .ok keyed => .ok ((List.insertionSort pairLE keyed).map (fun p => p.2))

/-- The document printed when credentials are missing (lines 304–308). -/
def missingCredsDoc : JVal :=
  .obj [("error", .str "Missing UNIFI_USERNAME or UNIFI_PASSWORD environment variables"),
        ("clients", .arr []),
        ("devices", .arr [])]

/-- `c.get("is_wired")` truthiness used by the wired/wireless counters. -/
def isWiredOut (c : Obj) : Bool := (c.getN "is_wired").truthy

/-- `d.get("category") == s` used by the device-category counters. -/
def catIs (c : Obj) (s : String) : Bool := c.getN "category" == JVal.str s

/-- The success output document (lines 339–352). -/
def outputDoc (clients devices : List Obj) : Obj :=
  [("clients", .arr (clients.map JVal.obj)),
   ("total_count", .num clients.length),
   ("wired_count", .num (clients.countP isWiredOut)),
   ("wireless_count", .num (clients.countP (fun c => !isWiredOut c))),
   ("devices", .arr (devices.map JVal.obj)),
   ("device_count", .num devices.length),
   ("switch_count", .num (devices.countP (fun d => catIs d "switch"))),
   ("ap_count", .num (devices.countP (fun d => catIs d "access_point"))),
   ("gateway_count", .num (devices.countP (fun d => catIs d "gateway")))]

/-- One invocation of the script: the HTTP requests issued in order, the
JSON documents printed to stdout in order, and either an exit code or the
message of an uncaught Python exception (which ends the process with a
traceback and no further JSON output). -/
structure RunResult where
  reqs : List HttpReq
  prints : List JVal
  result : Except String Nat
deriving Repr

/-- The tail of `main()` (lines 322–352): fetch-result processing —
format each raw client, sort clients by lowercased hostname and devices by
lowercased name, and assemble the output dict. -/
def build_output (device_names : List (JVal × JVal)) (devices0 : List Obj)
    (rawClientsVal : JVal) : Except String Obj :=
  match pyIter rawClientsVal with
  | .error e => .error e
  | .ok raw =>
    match mapE JVal.asObj raw with
    | .error e => .error e
    | .ok rawObjs =>
      let clients0 := rawObjs.map (fun c => format_client c device_names)
      match sortByKey clientSortKey clients0 with
      | .error e => .error e
      | .ok clients =>
        match sortByKey deviceSortKey devices0 with
        | .error e => .error e
        | .ok devices => .ok (outputDoc clients devices)

/-- `main()` (lines 298–354).  (Named `mainRun` because Lean reserves `main`
for an executable entry point.) -/
def mainRun (env : String → Option String) (oracle : Oracle) : RunResult :=
  let config := get_config env
  if config.username == "" || config.password == "" then
    ⟨[], [missingCredsDoc], .ok 1⟩
  else
    match authenticate oracle config with
    | (authReqs, authPrints, false) => ⟨authReqs, authPrints, .ok 1⟩
    | (authReqs, authPrints, true) =>
      let (devReqs, devRes) := get_devices oracle config
      match devRes with
      | .error msg => ⟨authReqs ++ devReqs, authPrints, .error msg⟩
      | .ok (device_names, devices0) =>
        let (cliReqs, cliRes) := get_clients oracle config
        let reqs := authReqs ++ devReqs ++ cliReqs
        match cliRes with
        | .error msg => ⟨reqs, authPrints, .error msg⟩
        | .ok rawClientsVal =>
          match build_output device_names devices0 rawClientsVal with
          | .error msg => ⟨reqs, authPrints, .error msg⟩
          | .ok output => ⟨reqs, authPrints ++ [JVal.obj output], .ok 0⟩


/-! ## Observation helpers and general lemmas -/

/-- Field of a printed JSON document (when it is an object). -/
def docField (v : JVal) (k : String) : Option JVal :=
  match v with
  | .obj o => lookupField o k
  | _ => none

/-- The lowercased string stored under key `k` of a JSON object (empty
string when the document is not an object, the key is absent, or the value
is not a string). -/
def lowerFieldStr (v : JVal) (k : String) : String :=
  match v with
  | .obj o =>
    match lookupField o k with
    | some (.str s) => pyLower s
    | _ => ""
  | _ => ""

/-- An environment with credentials set and all other variables unset. -/
def envU : String → Option String := fun k =>
  if k == "UNIFI_USERNAME" then some "u"
  else if k == "UNIFI_PASSWORD" then some "p"
  else none

/-- A fixture: login succeeds; one device of unrecognized type `camcam`;
two wireless clients whose hostname order differs from their name order. -/
def oracleU : Oracle := fun r =>
  if r.url == "https://192.168.1.1/api/auth/login" then .ok (.obj [])
  else if r.url == "https://192.168.1.1/proxy/network/api/s/default/stat/device" then
    .ok (.obj [("data", .arr [.obj [("type", .str "camcam")]])])
  else if r.url == "https://192.168.1.1/proxy/network/api/s/default/stat/sta" then
    .ok (.obj [("data", .arr
      [.obj [("hostname", .str "B"), ("name", .str "z")],
       .obj [("hostname", .str "a"), ("name", .str "a")]])])
  else .error "fail"

/-- A fixture configuration for exercising `authenticate` directly. -/
def cfg0 : Config :=
  { host := "192.168.1.1", username := "u", password := "p",
    site := "default", verify_ssl := false }

/-- A network where the primary and legacy login endpoints fail with
distinguishable messages. -/
def oracleDown : Oracle := fun r =>
  if r.url == authUrl cfg0 then .error "primary down" else .error "legacy down"

/-- A network where only login succeeds: the device fetch and both client
fetch attempts raise. -/
def oracleC1 : Oracle := fun r =>
  if r.url == "https://192.168.1.1/api/auth/login" then .ok (.obj [])
  else .error "request failed"

/-- A fixture with two clients whose hostname order is the reverse of their
name order: `clients.sort` uses the hostname, not the name. -/
def oracleC3 : Oracle := fun r =>
  if r.url == "https://192.168.1.1/api/auth/login" then .ok (.obj [])
  else if r.url == "https://192.168.1.1/proxy/network/api/s/default/stat/device" then
    .ok (.obj [("data", .arr [])])
  else if r.url == "https://192.168.1.1/proxy/network/api/s/default/stat/sta" then
    .ok (.obj [("data", .arr
      [.obj [("hostname", .str "a"), ("name", .str "z")],
       .obj [("hostname", .str "b"), ("name", .str "a")]])])
  else .error "request failed"

/-- The lowercased `name` fields of the `clients` array of a document. -/
def namesOfDoc (d : JVal) : List String :=
  match docField d "clients" with
  | some (.arr cs) => cs.map (fun c => lowerFieldStr c "name")
  | _ => []

/-- The output fields of `format_client` that are plain
`client.get(key, default)` renamings, with their defaults. -/
def clientFieldDefaults : List (String × JVal) :=
  [("mac", .str ""), ("oui", .str ""), ("ip", .str ""), ("network", .str ""),
   ("vlan", .num 1), ("sw_mac", .str ""), ("is_wired", .bool false),
   ("is_guest", .bool false), ("uptime", .num 0), ("last_seen", .num 0),
   ("first_seen", .num 0), ("essid", .str ""), ("radio", .str ""),
   ("signal", .num 0), ("ap_mac", .str ""), ("tx_bytes", .num 0),
   ("rx_bytes", .num 0), ("tx_packets", .num 0), ("rx_packets", .num 0),
   ("satisfaction", .num 100), ("noted", .bool false), ("usergroup_id", .str "")]

/-- The output fields of `format_port` that are plain
`port.get(key, default)` renamings, with their defaults. -/
def portFieldDefaults : List (String × JVal) :=
  [("up", .bool false), ("speed", .num 0), ("full_duplex", .bool false),
   ("poe_enable", .bool false), ("poe_mode", .str ""), ("poe_power", .str ""),
   ("is_uplink", .bool false), ("mac", .str ""), ("lldp_remote_mac", .str ""),
   ("port_mac", .str "")]

/-- The single document printed by the `envU`/`oracleU` fixture run. -/
def docW : JVal := (mainRun envU oracleU).prints.headD JVal.null

/-- The clients array of that document. -/
def csW : List JVal :=
  match docField docW "clients" with
  | some (JVal.arr l) => l
  | _ => []


lemma jval_beq_str {v : JVal} {s : String} (h : (v == JVal.str s) = true) :
    v = JVal.str s := by
  cases v <;> simp_all [(· == ·), JVal.beq]

lemma mapE_mem {α β : Type} (f : α → Except String β) :
    ∀ {xs : List α} {ys : List β}, mapE f xs = .ok ys → ∀ y ∈ ys, ∃ x ∈ xs, f x = .ok y := by
  intro xs
  induction xs with
  | nil =>
    intro ys h y hy
    simp only [mapE] at h
    cases h
    simp at hy
  | cons x xs ih =>
    intro ys h y hy
    simp only [mapE] at h
    cases hfx : f x with
    | error e => rw [hfx] at h; cases h
    | ok b =>
      rw [hfx] at h
      cases hrec : mapE f xs with
      | error e => rw [hrec] at h; cases h
      | ok bs =>
        rw [hrec] at h
        cases h
        rcases List.mem_cons.mp hy with hyb | hybs
        · exact ⟨x, List.mem_cons_self x xs, hyb ▸ hfx⟩
        · obtain ⟨x', hx', hfx'⟩ := ih hrec y hybs
          exact ⟨x', List.mem_cons_of_mem _ hx', hfx'⟩

lemma sortByKey_shape (key : Obj → Except String String) {xs ys : List Obj}
    (h : sortByKey key xs = .ok ys) :
    ∃ keyed, mapE (fun x => (key x).map (fun s => (s, x))) xs = .ok keyed ∧
      ys = (List.insertionSort pairLE keyed).map (fun p => p.2) := by
  unfold sortByKey at h
  cases hk : mapE (fun x => (key x).map (fun s => (s, x))) xs with
  | error e => rw [hk] at h; cases h
  | ok keyed =>
    rw [hk] at h
    cases h
    exact ⟨keyed, rfl, rfl⟩

lemma sortByKey_sorted (key : Obj → Except String String) (f : JVal → String)
    (hf : ∀ o s, key o = .ok s → f (JVal.obj o) = s)
    {xs ys : List Obj} (h : sortByKey key xs = .ok ys) :
    List.Chain' (fun a b => strLe (f a) (f b) = true) (ys.map JVal.obj) := by
  obtain ⟨keyed, hk, hys⟩ := sortByKey_shape key h
  subst hys
  have hsorted : List.Sorted pairLE (List.insertionSort pairLE keyed) :=
    List.sorted_insertionSort pairLE keyed
  have hmem : ∀ p ∈ List.insertionSort pairLE keyed, key p.2 = .ok p.1 := by
    intro p hp
    have hpk : p ∈ keyed := (List.perm_insertionSort pairLE keyed).mem_iff.mp hp
    obtain ⟨x, _, hfx⟩ := mapE_mem _ hk p hpk
    cases hkx : key x with
    | error e => rw [hkx] at hfx; simp [Except.map] at hfx
    | ok s =>
      rw [hkx] at hfx
      simp only [Except.map, Except.ok.injEq] at hfx
      rw [← hfx]
      exact hkx
  apply List.Pairwise.chain'
  rw [List.map_map, List.pairwise_map]
  refine hsorted.imp_of_mem ?_
  intro a b ha hb hab
  simp only [Function.comp]
  rw [hf a.2 a.1 (hmem a ha), hf b.2 b.1 (hmem b hb)]
  exact hab

lemma key_lower_eq {o : Obj} {k s : String}
    (h : (JVal.asStr (o.getD k (.str ""))).map pyLower = .ok s) :
    lowerFieldStr (JVal.obj o) k = s := by
  unfold Obj.getD at h
  show (match lookupField o k with
        | some (JVal.str u) => pyLower u
        | _ => "") = s
  cases hlk : lookupField o k with
  | none =>
    rw [hlk] at h
    simp only [Option.getD, JVal.asStr, Except.map, Except.ok.injEq] at h
    rw [show (pyLower "") = "" by decide] at h
    exact h
  | some v =>
    rw [hlk] at h
    cases v with
    | str u =>
      simp only [Option.getD, JVal.asStr, Except.map, Except.ok.injEq] at h
      exact h
    | null => simp [Option.getD, JVal.asStr, Except.map] at h
    | bool b => simp [Option.getD, JVal.asStr, Except.map] at h
    | num n => simp [Option.getD, JVal.asStr, Except.map] at h
    | arr xs => simp [Option.getD, JVal.asStr, Except.map] at h
    | obj fs => simp [Option.getD, JVal.asStr, Except.map] at h

lemma countP_not_add {α : Type} (p : α → Bool) (l : List α) :
    l.countP p + l.countP (fun a => !p a) = l.length := by
  induction l with
  | nil => simp
  | cons x xs ih =>
    simp only [List.countP_cons, List.length_cons]
    cases hx : p x <;> simp [hx] <;> omega

lemma countP_three_le {α : Type} (p q r : α → Bool) (l : List α)
    (hpq : ∀ x ∈ l, ¬(p x = true ∧ q x = true))
    (hpr : ∀ x ∈ l, ¬(p x = true ∧ r x = true))
    (hqr : ∀ x ∈ l, ¬(q x = true ∧ r x = true)) :
    l.countP p + l.countP q + l.countP r ≤ l.length := by
  induction l with
  | nil => simp
  | cons x xs ih =>
    simp only [List.countP_cons, List.length_cons]
    have h1 := hpq x (List.mem_cons_self x xs)
    have h2 := hpr x (List.mem_cons_self x xs)
    have h3 := hqr x (List.mem_cons_self x xs)
    have ih' := ih (fun y hy => hpq y (List.mem_cons_of_mem _ hy))
      (fun y hy => hpr y (List.mem_cons_of_mem _ hy))
      (fun y hy => hqr y (List.mem_cons_of_mem _ hy))
    cases hp : p x <;> cases hq : q x <;> cases hr : r x <;> simp_all <;> omega

/-! ## Behaviour lemmas for the HTTP-level functions -/

lemma authenticate_reqs (oracle : Oracle) (cfg : Config) :
    (authenticate oracle cfg).1 =
      (match oracle ⟨"POST", authUrl cfg⟩ with
       | .ok _ => [⟨"POST", authUrl cfg⟩]
       | .error _ => [⟨"POST", authUrl cfg⟩, ⟨"POST", legacyAuthUrl cfg⟩]) := by
  cases h : oracle ⟨"POST", authUrl cfg⟩ with
  | ok v => simp [authenticate, h]
  | error e =>
    cases h2 : oracle ⟨"POST", legacyAuthUrl cfg⟩ <;> simp [authenticate, h, h2]

lemma get_clients_reqs (oracle : Oracle) (cfg : Config) :
    (get_clients oracle cfg).1 =
      (match oracle ⟨"GET", clientsUrl cfg⟩ with
       | .ok _ => [⟨"GET", clientsUrl cfg⟩]
       | .error _ => [⟨"GET", clientsUrl cfg⟩, ⟨"GET", legacyClientsUrl cfg⟩]) := by
  cases h : oracle ⟨"GET", clientsUrl cfg⟩ with
  | ok v => simp [get_clients, h]
  | error e =>
    cases h2 : oracle ⟨"GET", legacyClientsUrl cfg⟩ <;> simp [get_clients, h, h2]

lemma get_devices_reqs (oracle : Oracle) (cfg : Config) :
    (get_devices oracle cfg).1 = [⟨"GET", devicesUrl cfg⟩] := by
  cases h : oracle ⟨"GET", devicesUrl cfg⟩ <;> simp [get_devices, h]

lemma authenticate_reqs_len (oracle : Oracle) (cfg : Config) :
    (authenticate oracle cfg).1.length ≤ 2 := by
  rw [authenticate_reqs]
  cases oracle ⟨"POST", authUrl cfg⟩ <;> simp

lemma get_clients_reqs_len (oracle : Oracle) (cfg : Config) :
    (get_clients oracle cfg).1.length ≤ 2 := by
  rw [get_clients_reqs]
  cases oracle ⟨"GET", clientsUrl cfg⟩ <;> simp

lemma authenticate_true_prints (oracle : Oracle) (cfg : Config)
    (h : (authenticate oracle cfg).2.2 = true) : (authenticate oracle cfg).2.1 = [] := by
  cases hp : oracle ⟨"POST", authUrl cfg⟩ with
  | ok v => simp [authenticate, hp]
  | error e =>
    cases hl : oracle ⟨"POST", legacyAuthUrl cfg⟩ with
    | ok v => simp [authenticate, hp, hl]
    | error e2 => simp [authenticate, hp, hl] at h

lemma authenticate_false_shape (oracle : Oracle) (cfg : Config)
    (h : (authenticate oracle cfg).2.2 = false) :
    ∃ e, oracle ⟨"POST", authUrl cfg⟩ = .error e ∧
      (∃ e2, oracle ⟨"POST", legacyAuthUrl cfg⟩ = .error e2) ∧
      authenticate oracle cfg =
        ([⟨"POST", authUrl cfg⟩, ⟨"POST", legacyAuthUrl cfg⟩], [authFailDoc e], false) := by
  cases hp : oracle ⟨"POST", authUrl cfg⟩ with
  | ok v => simp [authenticate, hp] at h
  | error e =>
    cases hl : oracle ⟨"POST", legacyAuthUrl cfg⟩ with
    | ok v => simp [authenticate, hp, hl] at h
    | error e2 => exact ⟨e, rfl, ⟨e2, rfl⟩, by simp [authenticate, hp, hl]⟩

lemma build_output_ok {names : List (JVal × JVal)} {ds0 : List Obj} {rawVal : JVal}
    {output : Obj} (h : build_output names ds0 rawVal = .ok output) :
    ∃ cs0 clients devices,
      sortByKey clientSortKey cs0 = .ok clients ∧
      sortByKey deviceSortKey ds0 = .ok devices ∧
      output = outputDoc clients devices := by
  unfold build_output at h
  cases h1 : pyIter rawVal with
  | error e => simp only [h1] at h; exact Except.noConfusion h
  | ok raw =>
    simp only [h1] at h
    cases h2 : mapE JVal.asObj raw with
    | error e => simp only [h2] at h; exact Except.noConfusion h
    | ok rawObjs =>
      simp only [h2] at h
      cases h3 : sortByKey clientSortKey (rawObjs.map (fun c => format_client c names)) with
      | error e => simp only [h3] at h; exact Except.noConfusion h
      | ok clients =>
        simp only [h3] at h
        cases h4 : sortByKey deviceSortKey ds0 with
        | error e => simp only [h4] at h; exact Except.noConfusion h
        | ok devices =>
          simp only [h4, Except.ok.injEq] at h
          exact ⟨_, clients, devices, h3, rfl, h.symm⟩

/-- Exhaustive classification of one invocation of the script. -/
lemma mainRun_cases (env : String → Option String) (oracle : Oracle) :
    (((get_config env).username == "" || (get_config env).password == "") = true ∧
       mainRun env oracle = ⟨[], [missingCredsDoc], .ok 1⟩) ∨
    (((get_config env).username == "" || (get_config env).password == "") = false ∧
       (authenticate oracle (get_config env)).2.2 = false ∧
       mainRun env oracle = ⟨(authenticate oracle (get_config env)).1,
         (authenticate oracle (get_config env)).2.1, .ok 1⟩) ∨
    (((get_config env).username == "" || (get_config env).password == "") = false ∧
       (authenticate oracle (get_config env)).2.2 = true ∧
       ∃ msg tail, (tail = [] ∨ tail = (get_clients oracle (get_config env)).1) ∧
         mainRun env oracle = ⟨(authenticate oracle (get_config env)).1 ++
           (get_devices oracle (get_config env)).1 ++ tail, [], .error msg⟩) ∨
    (((get_config env).username == "" || (get_config env).password == "") = false ∧
       (authenticate oracle (get_config env)).2.2 = true ∧
       ∃ cs0 ds0 clients devices,
         sortByKey clientSortKey cs0 = .ok clients ∧
         sortByKey deviceSortKey ds0 = .ok devices ∧
         mainRun env oracle = ⟨(authenticate oracle (get_config env)).1 ++
           (get_devices oracle (get_config env)).1 ++ (get_clients oracle (get_config env)).1,
           [JVal.obj (outputDoc clients devices)], .ok 0⟩) := by
  by_cases hcred : ((get_config env).username == "" || (get_config env).password == "") = true
  · left
    refine ⟨hcred, ?_⟩
    unfold mainRun
    simp only [hcred, if_true]
  · rw [Bool.not_eq_true] at hcred
    rcases hA : authenticate oracle (get_config env) with ⟨aReqs, aPrints, ab⟩
    cases ab with
    | false =>
      right; left
      refine ⟨hcred, rfl, ?_⟩
      unfold mainRun
      simp only [hcred, Bool.false_eq_true, if_false, hA]
    | true =>
      have haP : aPrints = [] := by
        have := authenticate_true_prints oracle (get_config env) (by rw [hA])
        rw [hA] at this
        exact this
      subst haP
      rcases hD : get_devices oracle (get_config env) with ⟨dReqs, dRes⟩
      cases dRes with
      | error msg =>
        right; right; left
        refine ⟨hcred, rfl, msg, [], Or.inl rfl, ?_⟩
        unfold mainRun
        simp only [hcred, Bool.false_eq_true, if_false, hA, hD, List.append_nil]
      | ok namesDs =>
        rcases namesDs with ⟨names, ds0⟩
        rcases hC : get_clients oracle (get_config env) with ⟨cReqs, cRes⟩
        cases cRes with
        | error msg =>
          right; right; left
          refine ⟨hcred, rfl, msg, cReqs, Or.inr rfl, ?_⟩
          unfold mainRun
          simp only [hcred, Bool.false_eq_true, if_false, hA, hD, hC]
        | ok rawVal =>
          cases hB : build_output names ds0 rawVal with
          | error msg =>
            right; right; left
            refine ⟨hcred, rfl, msg, cReqs, Or.inr rfl, ?_⟩
            unfold mainRun
            simp only [hcred, Bool.false_eq_true, if_false, hA, hD, hC, hB]
          | ok output =>
            right; right; right
            obtain ⟨cs0, clients, devices, hs1, hs2, ho⟩ := build_output_ok hB
            refine ⟨hcred, rfl, cs0, ds0, clients, devices, hs1, hs2, ?_⟩
            unfold mainRun
            simp only [hcred, Bool.false_eq_true, if_false, hA, hD, hC, hB, ho,
              List.nil_append]

lemma mainRun_missing_creds (env : String → Option String) (oracle : Oracle)
    (h : (get_config env).username = "" ∨ (get_config env).password = "") :
    mainRun env oracle = ⟨[], [missingCredsDoc], .ok 1⟩ := by
  have hb : ((get_config env).username == "" || (get_config env).password == "") = true := by
    rcases h with h | h <;> simp [h]
  unfold mainRun
  simp only [hb, if_true]

lemma mainRun_auth_fail (env : String → Option String) (oracle : Oracle) (e e2 : String)
    (hu : (get_config env).username ≠ "") (hpw : (get_config env).password ≠ "")
    (h1 : oracle ⟨"POST", authUrl (get_config env)⟩ = .error e)
    (h2 : oracle ⟨"POST", legacyAuthUrl (get_config env)⟩ = .error e2) :
    mainRun env oracle =
      ⟨[⟨"POST", authUrl (get_config env)⟩, ⟨"POST", legacyAuthUrl (get_config env)⟩],
       [authFailDoc e], .ok 1⟩ := by
  have hb : ((get_config env).username == "" || (get_config env).password == "") = false := by
    simp [hu, hpw]
  have hAeq : authenticate oracle (get_config env) =
      ([⟨"POST", authUrl (get_config env)⟩, ⟨"POST", legacyAuthUrl (get_config env)⟩],
       [authFailDoc e], false) := by
    simp [authenticate, h1, h2]
  unfold mainRun
  simp only [hb, Bool.false_eq_true, if_false, hAeq]

/-! ## Claim theorems -/

/-- C10: when both authentication endpoints fail, the error JSON printed by
`authenticate` carries the message of the *primary* endpoint's exception
(not the legacy one's), together with an empty `clients` list, and
`authenticate` returns `False`. -/
theorem unifi_C10_auth_error_primary_message (oracle : Oracle) (cfg : Config) (e e2 : String)
    (hp : oracle ⟨"POST", authUrl cfg⟩ = .error e)
    (hl : oracle ⟨"POST", legacyAuthUrl cfg⟩ = .error e2) :
    authenticate oracle cfg =
      ([⟨"POST", authUrl cfg⟩, ⟨"POST", legacyAuthUrl cfg⟩],
       [JVal.obj [("error", .str ("Authentication failed: " ++ e)), ("clients", .arr [])]],
       false) := by
  simp [authenticate, hp, hl, authFailDoc]

/-- Witness for C10 at a concrete network whose two endpoints fail with
different messages: the primary message is the one reported. -/
theorem unifi_C10_witness :
    authenticate oracleDown cfg0 =
      ([⟨"POST", authUrl cfg0⟩, ⟨"POST", legacyAuthUrl cfg0⟩],
       [JVal.obj [("error", .str "Authentication failed: primary down"), ("clients", .arr [])]],
       false) :=
  unifi_C10_auth_error_primary_message oracleDown cfg0 "primary down" "legacy down" rfl rfl

/-- C2: the script prints an error JSON and exits with code 1 whenever the
username or password is empty, and whenever authentication fails on both the
primary and the legacy endpoint. -/
theorem unifi_C2_exit_code_one (env : String → Option String) (oracle : Oracle) :
    ((get_config env).username = "" ∨ (get_config env).password = "" →
      mainRun env oracle = ⟨[], [missingCredsDoc], .ok 1⟩) ∧
    ((get_config env).username ≠ "" → (get_config env).password ≠ "" →
      ∀ e e2, oracle ⟨"POST", authUrl (get_config env)⟩ = .error e →
        oracle ⟨"POST", legacyAuthUrl (get_config env)⟩ = .error e2 →
        mainRun env oracle =
          ⟨[⟨"POST", authUrl (get_config env)⟩, ⟨"POST", legacyAuthUrl (get_config env)⟩],
           [authFailDoc e], .ok 1⟩) :=
  ⟨fun h => mainRun_missing_creds env oracle h,
   fun hu hpw e e2 h1 h2 => mainRun_auth_fail env oracle e e2 hu hpw h1 h2⟩

/-- Witness for C2: with no environment variables set the script prints the
missing-credentials document and exits 1. -/
theorem unifi_C2_witness :
    mainRun (fun _ => none) oracleDown = ⟨[], [missingCredsDoc], .ok 1⟩ :=
  (unifi_C2_exit_code_one (fun _ => none) oracleDown).1 (Or.inl rfl)

/-- C6: the formatting pipeline is deterministic — two runs against
extensionally equal environments and networks produce identical results
(requests, printed JSON, and exit behaviour). -/
theorem unifi_C6_determinism (env1 env2 : String → Option String) (o1 o2 : Oracle)
    (henv : ∀ k, env1 k = env2 k) (h : ∀ r, o1 r = o2 r) :
    mainRun env1 o1 = mainRun env2 o2 := by
  have he : env1 = env2 := funext henv
  have ho : o1 = o2 := funext h
  rw [he, ho]

/-- Witness for C6 at the concrete fixture. -/
theorem unifi_C6_witness : mainRun envU oracleU = mainRun envU oracleU :=
  unifi_C6_determinism envU envU oracleU oracleU (fun _ => rfl) (fun _ => rfl)

/-- C4: `format_client` returns a dictionary with a fixed set of output
fields; each simply-renamed field equals the vendor value when the key is
present and a fixed default otherwise (vlan 1, satisfaction 100, is_wired
False, uptime 0, ...); hostname falls back to the name field and then to
"Unknown"; and `format_port` behaves the same way for port entries. -/
theorem unifi_C4_field_mapping (client : Obj) (dn : List (JVal × JVal)) (port : Obj) :
    ((format_client client dn).map Prod.fst =
      ["mac", "hostname", "name", "oui", "ip", "network", "vlan", "sw_port", "sw_mac",
       "sw_name", "sw_depth", "is_wired", "is_guest", "uptime", "last_seen", "first_seen",
       "essid", "radio", "signal", "channel", "ap_mac", "tx_bytes", "rx_bytes",
       "tx_packets", "rx_packets", "satisfaction", "noted", "usergroup_id"]) ∧
    (∀ k d, (k, d) ∈ clientFieldDefaults →
      lookupField (format_client client dn) k = some (client.getD k d)) ∧
    (lookupField (format_client client dn) "hostname" =
      some (client.getD "hostname" (client.getD "name" (.str "Unknown")))) ∧
    ((format_port port).map Prod.fst =
      ["port_idx", "name", "up", "speed", "full_duplex", "poe_enable", "poe_mode",
       "poe_power", "is_uplink", "mac", "lldp_remote_mac", "port_mac"]) ∧
    (∀ k d, (k, d) ∈ portFieldDefaults →
      lookupField (format_port port) k = some (port.getD k d)) := by
  refine ⟨rfl, ?_, rfl, rfl, ?_⟩
  · intro k d hk
    fin_cases hk <;> rfl
  · intro k d hk
    fin_cases hk <;> rfl

/-- Witness for C4: vlan is passed through when present and defaults to 1
when absent. -/
theorem unifi_C4_witness :
    lookupField (format_client [("vlan", JVal.num 7)] []) "vlan" = some (JVal.num 7) ∧
    lookupField (format_client [] []) "vlan" = some (JVal.num 1) := by
  constructor
  · have h := (unifi_C4_field_mapping [("vlan", JVal.num 7)] [] []).2.1 "vlan" (JVal.num 1)
      (by simp [clientFieldDefaults])
    exact h.trans rfl
  · have h := (unifi_C4_field_mapping [] [] []).2.1 "vlan" (JVal.num 1)
      (by simp [clientFieldDefaults])
    exact h.trans rfl

/-- C9: `format_client` emits sw_port, sw_depth and channel with no default
(`dict.get` with a single argument), and `format_port` emits port_idx the
same way, so a vendor record lacking these keys yields null (`None`) there —
and on an empty vendor record these are exactly the null-valued output
fields, unlike every other field. -/
theorem unifi_C9_no_default_fields (client : Obj) (dn : List (JVal × JVal)) (port : Obj) :
    (lookupField (format_client client dn) "sw_port" = some (client.getN "sw_port")) ∧
    (lookupField (format_client client dn) "sw_depth" = some (client.getN "sw_depth")) ∧
    (lookupField (format_client client dn) "channel" = some (client.getN "channel")) ∧
    (lookupField (format_port port) "port_idx" = some (port.getN "port_idx")) ∧
    (lookupField client "sw_port" = none →
      lookupField (format_client client dn) "sw_port" = some JVal.null) ∧
    (((format_client [] []).filter (fun kv => kv.2 == JVal.null)).map Prod.fst =
      ["sw_port", "sw_depth", "channel"]) ∧
    (((format_port []).filter (fun kv => kv.2 == JVal.null)).map Prod.fst = ["port_idx"]) := by
  refine ⟨rfl, rfl, rfl, rfl, ?_, rfl, rfl⟩
  intro h
  have hn : client.getN "sw_port" = JVal.null := by simp [Obj.getN, h]
  rw [show lookupField (format_client client dn) "sw_port" =
    some (client.getN "sw_port") from rfl, hn]

/-- Witness for C9: a record without sw_port maps to a null sw_port. -/
theorem unifi_C9_witness :
    lookupField (format_client [("mac", JVal.str "aa")] []) "sw_port" = some JVal.null :=
  (unifi_C9_no_default_fields [("mac", JVal.str "aa")] [] []).2.2.2.2.1 rfl

/-- C7: on every invocation that exits through `sys.exit`/normal return —
successful run, missing credentials, or failed authentication — exactly one
JSON document is written to standard output.  (A run that dies with an
uncaught exception has `result = .error` and is excluded.) -/
theorem unifi_C7_single_document (env : String → Option String) (oracle : Oracle) (c : Nat)
    (h : (mainRun env oracle).result = .ok c) :
    (mainRun env oracle).prints.length = 1 := by
  rcases mainRun_cases env oracle with
      ⟨_, hr⟩ | ⟨_, hab, hr⟩ | ⟨_, _, msg, tail, _, hr⟩ | ⟨_, _, cs0, ds0, cl, dv, _, _, hr⟩
  · rw [hr]; rfl
  · rw [hr]
    obtain ⟨e, _, _, hAeq⟩ := authenticate_false_shape oracle (get_config env) hab
    simp [hAeq]
  · rw [hr] at h
    exact Except.noConfusion h
  · rw [hr]; rfl

/-- Witness for C7 on the missing-credentials path. -/
theorem unifi_C7_witness : (mainRun (fun _ => none) oracleDown).prints.length = 1 :=
  unifi_C7_single_document (fun _ => none) oracleDown 1 rfl

/-- C5 counterexample: a successful run issues three HTTP requests — login,
device fetch, client fetch — so the script does issue a third HTTP request,
contrary to the claim's "at most two ... never a third". -/
theorem unifi_C5_counterexample :
    (mainRun envU oracleU).reqs.length = 3 ∧ ¬((mainRun envU oracleU).reqs.length ≤ 2) := by
  exact ⟨rfl, by decide⟩

/-- C5 amended: each invocation makes at most five sequential blocking HTTP
requests — at most two login attempts, at most one device fetch, and at most
two client-fetch attempts, in that order. -/
theorem unifi_C5_amended (env : String → Option String) (oracle : Oracle) :
    (mainRun env oracle).reqs.length ≤ 5 ∧
    ((mainRun env oracle).reqs = [] ∨
     (mainRun env oracle).reqs = (authenticate oracle (get_config env)).1 ∨
     (mainRun env oracle).reqs = (authenticate oracle (get_config env)).1 ++
       (get_devices oracle (get_config env)).1 ∨
     (mainRun env oracle).reqs = (authenticate oracle (get_config env)).1 ++
       (get_devices oracle (get_config env)).1 ++ (get_clients oracle (get_config env)).1) ∧
    (authenticate oracle (get_config env)).1.length ≤ 2 ∧
    (get_devices oracle (get_config env)).1.length = 1 ∧
    (get_clients oracle (get_config env)).1.length ≤ 2 := by
  have hA := authenticate_reqs_len oracle (get_config env)
  have hD : (get_devices oracle (get_config env)).1.length = 1 := by
    rw [get_devices_reqs]; rfl
  have hC := get_clients_reqs_len oracle (get_config env)
  refine ⟨?_, ?_, hA, hD, hC⟩ <;>
    rcases mainRun_cases env oracle with
        ⟨_, hr⟩ | ⟨_, _, hr⟩ | ⟨_, _, msg, tail, htail, hr⟩ | ⟨_, _, cs0, ds0, cl, dv, _, _, hr⟩
  · rw [hr]; simp
  · rw [hr]; simpa using Nat.le_trans hA (by omega)
  · rw [hr]
    rcases htail with ht | ht <;> subst ht <;> simp_all <;> omega
  · rw [hr]; simp_all; omega
  · rw [hr]; exact Or.inl rfl
  · rw [hr]; exact Or.inr (Or.inl rfl)
  · rcases htail with ht | ht <;> subst ht
    · rw [hr]; simp
    · rw [hr]; right; right; right; rfl
  · rw [hr]; right; right; right; rfl

/-- C1 counterexample: with login succeeding and every fetch failing, the
device fetch is attempted only once — no legacy `:8443` device request is
ever issued — and the run exits with code 0, printing a document with empty
lists, not a non-zero exit. -/
theorem unifi_C1_counterexample :
    (mainRun envU oracleC1).result = .ok 0 ∧
    (mainRun envU oracleC1).reqs =
      [⟨"POST", "https://192.168.1.1/api/auth/login"⟩,
       ⟨"GET", "https://192.168.1.1/proxy/network/api/s/default/stat/device"⟩,
       ⟨"GET", "https://192.168.1.1/proxy/network/api/s/default/stat/sta"⟩,
       ⟨"GET", "https://192.168.1.1:8443/api/s/default/stat/sta"⟩] ∧
    ¬((⟨"GET", "https://192.168.1.1:8443/api/s/default/stat/device"⟩ : HttpReq) ∈
        (mainRun envU oracleC1).reqs) ∧
    (mainRun envU oracleC1).prints.map (fun d => docField d "clients") =
      [some (.arr [])] := by
  refine ⟨rfl, rfl, ?_, rfl⟩
  decide

/-- C1 amended: a network or HTTP failure on the *login* or *client-fetch*
primary endpoint triggers exactly one fallback attempt against the
corresponding legacy `:8443` endpoint, but the device fetch is attempted
only once with no fallback; if both login attempts fail the script prints an
error JSON and exits 1, while fetch failures leave the exit code 0 (empty
lists are emitted instead). -/
theorem unifi_C1_amended (env : String → Option String) (oracle : Oracle) :
    ((authenticate oracle (get_config env)).1 =
      match oracle ⟨"POST", authUrl (get_config env)⟩ with
      | .ok _ => [⟨"POST", authUrl (get_config env)⟩]
      | .error _ => [⟨"POST", authUrl (get_config env)⟩,
                     ⟨"POST", legacyAuthUrl (get_config env)⟩]) ∧
    ((get_clients oracle (get_config env)).1 =
      match oracle ⟨"GET", clientsUrl (get_config env)⟩ with
      | .ok _ => [⟨"GET", clientsUrl (get_config env)⟩]
      | .error _ => [⟨"GET", clientsUrl (get_config env)⟩,
                     ⟨"GET", legacyClientsUrl (get_config env)⟩]) ∧
    ((get_devices oracle (get_config env)).1 = [⟨"GET", devicesUrl (get_config env)⟩]) ∧
    (∀ e e2, (get_config env).username ≠ "" → (get_config env).password ≠ "" →
      oracle ⟨"POST", authUrl (get_config env)⟩ = .error e →
      oracle ⟨"POST", legacyAuthUrl (get_config env)⟩ = .error e2 →
      mainRun env oracle =
        ⟨[⟨"POST", authUrl (get_config env)⟩, ⟨"POST", legacyAuthUrl (get_config env)⟩],
         [authFailDoc e], .ok 1⟩) ∧
    (∀ c, (get_config env).username ≠ "" → (get_config env).password ≠ "" →
      (authenticate oracle (get_config env)).2.2 = true →
      (mainRun env oracle).result = .ok c → c = 0) := by
  refine ⟨authenticate_reqs oracle (get_config env), get_clients_reqs oracle (get_config env),
    get_devices_reqs oracle (get_config env),
    fun e e2 hu hpw h1 h2 => mainRun_auth_fail env oracle e e2 hu hpw h1 h2, ?_⟩
  intro c hu hpw hab h
  rcases mainRun_cases env oracle with
      ⟨hcred, hr⟩ | ⟨_, hab2, hr⟩ | ⟨_, _, msg, tail, _, hr⟩ | ⟨_, _, cs0, ds0, cl, dv, _, _, hr⟩
  · rcases Bool.or_eq_true_iff.mp hcred with hz | hz
    · exact absurd (by simpa using hz) hu
    · exact absurd (by simpa using hz) hpw
  · rw [hab] at hab2
    exact Bool.noConfusion hab2
  · rw [hr] at h
    exact Except.noConfusion h
  · rw [hr] at h
    exact (Except.ok.injEq _ _).mp h.symm

/-- Witness for C1's amended claim at a concrete failing network. -/
theorem unifi_C1_witness :
    mainRun envU oracleDown =
      ⟨[⟨"POST", authUrl (get_config envU)⟩, ⟨"POST", legacyAuthUrl (get_config envU)⟩],
       [authFailDoc "primary down"], .ok 1⟩ :=
  (unifi_C1_amended envU oracleDown).2.2.2.1 "primary down" "legacy down"
    (by decide) (by decide) rfl rfl

lemma catIs_unique {c : Obj} {s t : String} (h1 : catIs c s = true) (h2 : catIs c t = true) :
    s = t := by
  have h1' : (c.getN "category" == JVal.str s) = true := h1
  have h2' : (c.getN "category" == JVal.str t) = true := h2
  have e1 := jval_beq_str h1'
  have e2 := jval_beq_str h2'
  rw [e1] at e2
  injection e2

/-- C8: in every printed document, total_count equals the length of the
clients list and equals wired_count plus wireless_count, while device_count
is only bounded below by switch_count + ap_count + gateway_count — and the
bound is strict on a fixture whose device type is outside the recognized
lists. -/
theorem unifi_C8_counts (env : String → Option String) (oracle : Oracle) (doc : JVal)
    (hdoc : doc ∈ (mainRun env oracle).prints)
    (t w wl dc sc ac gc : Int) (cs : List JVal)
    (ht : docField doc "total_count" = some (.num t))
    (hcs : docField doc "clients" = some (.arr cs))
    (hw : docField doc "wired_count" = some (.num w))
    (hwl : docField doc "wireless_count" = some (.num wl))
    (hdc : docField doc "device_count" = some (.num dc))
    (hsc : docField doc "switch_count" = some (.num sc))
    (hac : docField doc "ap_count" = some (.num ac))
    (hgc : docField doc "gateway_count" = some (.num gc)) :
    t = cs.length ∧ w + wl = t ∧ sc + ac + gc ≤ dc ∧
    (mainRun envU oracleU).prints.map
        (fun d => (docField d "device_count", docField d "switch_count",
                   docField d "ap_count", docField d "gateway_count")) =
      [(some (.num 1), some (.num 0), some (.num 0), some (.num 0))] := by
  rcases mainRun_cases env oracle with
      ⟨_, hr⟩ | ⟨_, hab, hr⟩ | ⟨_, _, msg, tail, _, hr⟩ | ⟨_, _, cs0, ds0, cl, dv, _, _, hr⟩
  · rw [hr] at hdoc
    simp only [List.mem_singleton] at hdoc
    subst hdoc
    rw [show docField missingCredsDoc "total_count" = none from rfl] at ht
    exact Option.noConfusion ht
  · rw [hr] at hdoc
    obtain ⟨e, _, _, hAeq⟩ := authenticate_false_shape oracle (get_config env) hab
    simp only [hAeq, List.mem_singleton] at hdoc
    subst hdoc
    rw [show docField (authFailDoc e) "total_count" = none from rfl] at ht
    exact Option.noConfusion ht
  · rw [hr] at hdoc
    simp at hdoc
  · rw [hr] at hdoc
    simp only [List.mem_singleton] at hdoc
    subst hdoc
    rw [show docField (JVal.obj (outputDoc cl dv)) "total_count" =
      some (.num cl.length) from rfl] at ht
    rw [show docField (JVal.obj (outputDoc cl dv)) "clients" =
      some (.arr (cl.map JVal.obj)) from rfl] at hcs
    rw [show docField (JVal.obj (outputDoc cl dv)) "wired_count" =
      some (.num (cl.countP isWiredOut)) from rfl] at hw
    rw [show docField (JVal.obj (outputDoc cl dv)) "wireless_count" =
      some (.num (cl.countP (fun c => !isWiredOut c))) from rfl] at hwl
    rw [show docField (JVal.obj (outputDoc cl dv)) "device_count" =
      some (.num dv.length) from rfl] at hdc
    rw [show docField (JVal.obj (outputDoc cl dv)) "switch_count" =
      some (.num (dv.countP (fun d => catIs d "switch"))) from rfl] at hsc
    rw [show docField (JVal.obj (outputDoc cl dv)) "ap_count" =
      some (.num (dv.countP (fun d => catIs d "access_point"))) from rfl] at hac
    rw [show docField (JVal.obj (outputDoc cl dv)) "gateway_count" =
      some (.num (dv.countP (fun d => catIs d "gateway"))) from rfl] at hgc
    simp only [Option.some.injEq, JVal.num.injEq, JVal.arr.injEq] at ht hcs hw hwl hdc hsc hac hgc
    subst ht hw hwl hdc hsc hac hgc
    refine ⟨?_, ?_, ?_, rfl⟩
    · rw [← hcs, List.length_map]
    · have h := countP_not_add isWiredOut cl
      omega
    · have h3 := countP_three_le (fun d => catIs d "switch") (fun d => catIs d "access_point")
        (fun d => catIs d "gateway") dv
        (fun x _ hx => absurd (catIs_unique hx.1 hx.2) (by decide))
        (fun x _ hx => absurd (catIs_unique hx.1 hx.2) (by decide))
        (fun x _ hx => absurd (catIs_unique hx.1 hx.2) (by decide))
      omega

/-- Witness for C8 on the fixture run: 2 clients (0 wired + 2 wireless) and
1 device of unrecognized type, counted by no category. -/
theorem unifi_C8_witness :
    (2 : Int) = csW.length ∧ (0 : Int) + 2 = 2 ∧ (0 : Int) + 0 + 0 ≤ 1 ∧
    (mainRun envU oracleU).prints.map
        (fun d => (docField d "device_count", docField d "switch_count",
                   docField d "ap_count", docField d "gateway_count")) =
      [(some (.num 1), some (.num 0), some (.num 0), some (.num 0))] :=
  unifi_C8_counts envU oracleU docW
    (by rw [show (mainRun envU oracleU).prints = [docW] from rfl]; exact List.mem_singleton.mpr rfl)
    2 0 2 1 0 0 0 csW rfl rfl rfl rfl rfl rfl rfl rfl

/-- C3 counterexample: a fixture whose two clients have hostnames in one
order and names in the opposite order.  The emitted clients list carries the
names lowercased in the order `["z", "a"]`, which is not `≤`-sorted — the
code sorts clients by hostname, not by name. -/
theorem unifi_C3_counterexample :
    (mainRun envU oracleC3).prints.map namesOfDoc = [["z", "a"]] ∧
    strLe "z" "a" = false := ⟨rfl, rfl⟩

/-- C3 amended: in every printed document the clients list is sorted
case-insensitively by *hostname* and the devices list case-insensitively by
name (adjacent elements compare `≤` on the lowercased key). -/
theorem unifi_C3_sorted (env : String → Option String) (oracle : Oracle) (doc : JVal)
    (hdoc : doc ∈ (mainRun env oracle).prints) :
    (∀ cs, docField doc "clients" = some (.arr cs) →
      List.Chain' (fun a b =>
        strLe (lowerFieldStr a "hostname") (lowerFieldStr b "hostname") = true) cs) ∧
    (∀ ds, docField doc "devices" = some (.arr ds) →
      List.Chain' (fun a b =>
        strLe (lowerFieldStr a "name") (lowerFieldStr b "name") = true) ds) := by
  rcases mainRun_cases env oracle with
      ⟨_, hr⟩ | ⟨_, hab, hr⟩ | ⟨_, _, msg, tail, _, hr⟩ | ⟨_, _, cs0, ds0, cl, dv, hs1, hs2, hr⟩
  · rw [hr] at hdoc
    simp only [List.mem_singleton] at hdoc
    subst hdoc
    constructor
    · intro cs hcs
      rw [show docField missingCredsDoc "clients" = some (.arr []) from rfl] at hcs
      simp only [Option.some.injEq, JVal.arr.injEq] at hcs
      rw [← hcs]
      exact List.chain'_nil
    · intro ds hds
      rw [show docField missingCredsDoc "devices" = some (.arr []) from rfl] at hds
      simp only [Option.some.injEq, JVal.arr.injEq] at hds
      rw [← hds]
      exact List.chain'_nil
  · rw [hr] at hdoc
    obtain ⟨e, _, _, hAeq⟩ := authenticate_false_shape oracle (get_config env) hab
    simp only [hAeq, List.mem_singleton] at hdoc
    subst hdoc
    constructor
    · intro cs hcs
      rw [show docField (authFailDoc e) "clients" = some (.arr []) from rfl] at hcs
      simp only [Option.some.injEq, JVal.arr.injEq] at hcs
      rw [← hcs]
      exact List.chain'_nil
    · intro ds hds
      rw [show docField (authFailDoc e) "devices" = none from rfl] at hds
      exact Option.noConfusion hds
  · rw [hr] at hdoc
    simp at hdoc
  · rw [hr] at hdoc
    simp only [List.mem_singleton] at hdoc
    subst hdoc
    constructor
    · intro cs hcs
      rw [show docField (JVal.obj (outputDoc cl dv)) "clients" =
        some (.arr (cl.map JVal.obj)) from rfl] at hcs
      simp only [Option.some.injEq, JVal.arr.injEq] at hcs
      rw [← hcs]
      exact sortByKey_sorted clientSortKey (fun v => lowerFieldStr v "hostname")
        (fun o s h => key_lower_eq h) hs1
    · intro ds hds
      rw [show docField (JVal.obj (outputDoc cl dv)) "devices" =
        some (.arr (dv.map JVal.obj)) from rfl] at hds
      simp only [Option.some.injEq, JVal.arr.injEq] at hds
      rw [← hds]
      exact sortByKey_sorted deviceSortKey (fun v => lowerFieldStr v "name")
        (fun o s h => key_lower_eq h) hs2

/-- Witness for the amended C3 on the fixture run: the two formatted clients
appear sorted by lowercased hostname. -/
theorem unifi_C3_witness :
    List.Chain' (fun a b =>
      strLe (lowerFieldStr a "hostname") (lowerFieldStr b "hostname") = true) csW :=
  (unifi_C3_sorted envU oracleU docW
    (by rw [show (mainRun envU oracleU).prints = [docW] from rfl]; exact List.mem_singleton.mpr rfl)).1
    csW rfl
